import Mathlib

/-!
# Verification of the gaudium event-thread reactor protocol and input state tracker

A shallow embedding of the core of the `gaudium` repository:

* the event model (`gaudium-core/src/event.rs`),
* the generic input element/state diffing framework
  (`gaudium-core/src/framework/input/state.rs`),
* the keyboard and mouse snapshots
  (`gaudium-core/src/framework/input/{keyboard,mouse}.rs`),
* the reactor contract (`gaudium-core/src/reactor.rs`), and
* the Windows event-thread engine (`gaudium-platform-windows/src/reactor.rs`),
  modelled as a pure state machine over the reactor/queue/reaction state that
  the engine mutates; native message dispatch (Win32 calls) is outside the
  model, which covers the flush/drain/poll bookkeeping the engine performs
  between native calls.

Rust `HashSet`s are modelled as `Finset`s (the code only uses membership,
insert, remove, and symmetric difference, all order-independent), machine
integers as `Nat`/`Int` (no arithmetic is performed on them by the embedded
code), and `f64` fields by an opaque placeholder (no embedded code inspects
floating-point values).
-/

/-! ## Handles (gaudium-core/src/window.rs, device.rs)

Handles are opaque `Copy` wrappers around a platform-native identifier;
equality is structural equality of the underlying identifier. The
platform-native representation is erased and modelled as `ℕ`. -/

/-- `WindowHandle<P>` (window.rs 6-9): opaque wrapper, derived `PartialEq`. -/
structure WindowHandle where
  raw : Nat
deriving DecidableEq, Repr

/-- `DeviceHandle<P>` (device.rs 5-8): opaque wrapper, derived `PartialEq`. -/
structure DeviceHandle where
  raw : Nat
deriving DecidableEq, Repr

/-! ## Event model (gaudium-core/src/event.rs) -/

/-- Placeholder for Rust `f64` fields. No embedded function inspects
floating-point values, so the payload is irrelevant to every claim. -/
structure F64 where
deriving DecidableEq, Repr

/-- Modelled from the spec: `gaudium-core`'s `display` module (defining
`LogicalUnit`) is not under `src/`; the spec treats unit conversion as
out-of-scope linear scaling and describes positions as integer pairs
(spec section 3, `MouseState`), so logical units are modelled as `ℤ`. -/
abbrev LogicalUnit := Int

/-- Modelled from the spec: `gaudium-core`'s `display` module (defining
`PhysicalUnit`) is not under `src/`; modelled as `ℤ` like `LogicalUnit`. -/
abbrev PhysicalUnit := Int

/-- `ApplicationEvent` (event.rs 57-60). -/
inductive ApplicationEvent where
  | QueueExhausted
  | TimeoutExpired
deriving DecidableEq, Repr

/-- `WindowCloseState` (event.rs 109-112). -/
inductive WindowCloseState where
  | Requested
  | Committed
deriving DecidableEq, Repr

/-- `WindowEvent` (event.rs 100-106). `i32`/`u32` fields are `ℤ`/`ℕ`. -/
inductive WindowEvent where
  | Closed (state : WindowCloseState)
  | Activated
  | Deactivated
  | Moved (x y : Int)
  | Resized (w h : Nat)
deriving DecidableEq, Repr

/-- `ElementState` (event.rs 115-118). -/
inductive ElementState where
  | Pressed
  | Released
deriving DecidableEq, Repr

/-- `ScanCode` = `u32` (event.rs 120). -/
abbrev ScanCode := Nat

/-- `KeyCode` (event.rs 123): an empty (placeholder) enumeration. -/
inductive KeyCode where
deriving Repr

instance : DecidableEq KeyCode := fun a => nomatch a

/-- `ModifierState` (event.rs 126): an empty struct. -/
structure ModifierState where
deriving DecidableEq, Repr

/-- `MouseButton` (event.rs 129-134); `Other(u8)` carries a byte value. -/
inductive MouseButton where
  | Left
  | Right
  | Center
  | Other (value : Nat)
deriving DecidableEq, Repr

/-- `WindowPosition` (event.rs 136). -/
abbrev WindowPosition := LogicalUnit × LogicalUnit

/-- `RelativeMotion` (event.rs 137). -/
abbrev RelativeMotion := PhysicalUnit × PhysicalUnit

/-- `MouseMovement` (event.rs 140-143). -/
structure MouseMovement where
  absolute : Option WindowPosition
  relative : Option RelativeMotion
deriving DecidableEq, Repr

/-- `MouseWheelDelta` (event.rs 146-149). -/
inductive MouseWheelDelta where
  | Rotational (x y : F64)
  | Positional (x y : LogicalUnit)
deriving DecidableEq, Repr

/-- `Usage` (device.rs 31-36). -/
inductive Usage where
  | Keyboard
  | Mouse
  | GameController
deriving DecidableEq, Repr

/-- `GameControllerAxis` = `u8` (event.rs 151). -/
abbrev GameControllerAxis := Nat

/-- `GameControllerButton` = `u8` (event.rs 153). -/
abbrev GameControllerButton := Nat

/-- `InputEvent` (event.rs 63-97). -/
inductive InputEvent where
  | Connected (usage : Option Usage)
  | Disconnected
  | GameControllerButtonChanged (button : GameControllerButton) (state : ElementState)
  | GameControllerAxisChanged (axis : GameControllerAxis) (value : F64)
  | KeyboardKeyChanged (scancode : ScanCode) (keycode : Option KeyCode)
      (state : ElementState) (modifier : ModifierState)
  | MouseButtonChanged (button : MouseButton) (state : ElementState)
      (modifier : ModifierState)
  | MouseWheelRotated (delta : MouseWheelDelta) (modifier : ModifierState)
  | MouseMoved (movement : MouseMovement) (modifier : ModifierState)
deriving DecidableEq, Repr

/-- `Event<P>` (event.rs 6-23), with the platform parameter erased into the
concrete handle models. -/
inductive Event where
  | Application (event : ApplicationEvent)
  | Input (device : DeviceHandle) (window : Option WindowHandle) (event : InputEvent)
  | Window (window : WindowHandle) (event : WindowEvent)
deriving DecidableEq, Repr

/-- `Event::into_window_event` (event.rs 29-45): keeps the event exactly when
the window the event addresses (or `target` itself for a non-windowed `Input`
event) equals the target window. -/
def Event.into_window_event (e : Event) (window : WindowHandle) : Option Event :=
  let target : Option WindowHandle := some window
  if (match e with
      | Event.Input _ window _ =>
        match window with
        | some window => some window
        | none => target -- Do not filter non-windowed input events.
      | Event.Window window _ => some window
      | _ => none) = target
  then some e
  else none

/-! ## Generic element/state framework (gaudium-core/src/framework/input/state.rs) -/

/-- `State::transition` default method (state.rs 17-24): `None` when the new
and old states are equal, otherwise `Some(new)`. -/
def State.transition {α : Type} [DecidableEq α] (new old : α) : Option α :=
  if new = old then none else some new

/-- The blanket `CompositeState` implementation for `HashSet`-backed composite
states (state.rs 69-82): membership in the backing set means `Pressed`,
absence means `Released`. -/
def stateOfSet {E : Type} [DecidableEq E] (s : Finset E) (e : E) : ElementState :=
  if e ∈ s then ElementState.Pressed else ElementState.Released

/-- `HashSet::symmetric_difference` (used in state.rs 135-137): elements in
either set but not both. -/
def symmetricDifference {E : Type} [DecidableEq E] (a b : Finset E) : Finset E :=
  (a \ b) ∪ (b \ a)

/-- The blanket `SnapshotDifference::difference` implementation for
`HashSet`-backed composite states (state.rs 124-141): the symmetric difference
of the new and old backing sets, each element paired with its state in the new
composite state. (The Rust code collects the unordered `HashSet` iterator into
a `Vec`; the resulting collection is modelled by its set of elements.) -/
def snapshotDifference {E : Type} [DecidableEq E] (newSet oldSet : Finset E) :
    Finset (E × ElementState) :=
  (symmetricDifference newSet oldSet).image fun e => (e, stateOfSet newSet e)

/-! ## Keyboard snapshot (gaudium-core/src/framework/input/keyboard.rs) -/

/-- `KeyboardState` (keyboard.rs 87-90): the set of currently pressed keys. -/
structure KeyboardState where
  keys : Finset KeyCode
deriving DecidableEq

/-- `KeyboardState::new` (keyboard.rs 92-98). -/
def KeyboardState.new : KeyboardState :=
  { keys := ∅ }

/-- `KeyboardSnapshot` (keyboard.rs 13-17): new (live) and old states. -/
structure KeyboardSnapshot where
  new : KeyboardState
  old : KeyboardState
deriving DecidableEq

/-- `Default for KeyboardSnapshot` (keyboard.rs 25-32). -/
def KeyboardSnapshot.default : KeyboardSnapshot :=
  { new := KeyboardState.new, old := KeyboardState.new }

/-- `Snapshot::snapshot for KeyboardSnapshot` (keyboard.rs 42-49):
`self.old = self.new.clone()`. -/
def KeyboardSnapshot.snapshot (s : KeyboardSnapshot) : KeyboardSnapshot :=
  { s with old := s.new }

/-- `React for KeyboardSnapshot` (keyboard.rs 63-85): a `KeyboardKeyChanged`
input event with a `Some` keycode inserts (on `Pressed`) or removes (on
`Released`) the keycode from the live key set; every other event — including
a `KeyboardKeyChanged` whose keycode is `None` — leaves the snapshot as is. -/
def KeyboardSnapshot.react (s : KeyboardSnapshot) (e : Event) : KeyboardSnapshot :=
  match e with
  | Event.Input _ _ (InputEvent.KeyboardKeyChanged _ (some keycode) ElementState.Pressed _) =>
    { s with new := { keys := insert keycode s.new.keys } }
  | Event.Input _ _ (InputEvent.KeyboardKeyChanged _ (some keycode) ElementState.Released _) =>
    { s with new := { keys := s.new.keys.erase keycode } }
  | _ => s

/-! ## Mouse snapshot (gaudium-core/src/framework/input/mouse.rs) -/

/-- `MousePosition` marker element (mouse.rs 17-18); its `State` is `(i32, i32)`. -/
structure MousePosition where
deriving DecidableEq, Repr

/-- `MouseProximity` marker element (mouse.rs 26-27); its `State` is `bool`. -/
structure MouseProximity where
deriving DecidableEq, Repr

/-- `MouseState` (mouse.rs 159-164): pressed-button set, last absolute
position, and proximity flag. -/
structure MouseState where
  buttons : Finset MouseButton
  position : Int × Int
  proximity : Bool
deriving DecidableEq

/-- `MouseState::new` (mouse.rs 166-174): empty button set, position `(0, 0)`,
proximity `false`. -/
def MouseState.new : MouseState :=
  { buttons := ∅, position := (0, 0), proximity := false }

/-- `MouseSnapshot` (mouse.rs 33-37): new (live) and old states. -/
structure MouseSnapshot where
  new : MouseState
  old : MouseState
deriving DecidableEq

/-- `Default for MouseSnapshot` (mouse.rs 45-52). -/
def MouseSnapshot.default : MouseSnapshot :=
  { new := MouseState.new, old := MouseState.new }

/-- `Snapshot::snapshot for MouseSnapshot` (mouse.rs 62-69):
`self.old = self.new.clone()`. -/
def MouseSnapshot.snapshot (s : MouseSnapshot) : MouseSnapshot :=
  { s with old := s.new }

/-- `React for MouseSnapshot` (mouse.rs 122-157): a `MouseButtonChanged` event
inserts or removes the button from the live button set; a `MouseMoved` event
with an absolute position overwrites the live position (the `.into()`
conversions of the missing display module are modelled as the identity on ℤ);
every other event — including a `MouseMoved` carrying only relative motion —
leaves the snapshot as is. -/
def MouseSnapshot.react (s : MouseSnapshot) (e : Event) : MouseSnapshot :=
  match e with
  | Event.Input _ _ (InputEvent.MouseButtonChanged button ElementState.Pressed _) =>
    { s with new := { s.new with buttons := insert button s.new.buttons } }
  | Event.Input _ _ (InputEvent.MouseButtonChanged button ElementState.Released _) =>
    { s with new := { s.new with buttons := s.new.buttons.erase button } }
  | Event.Input _ _ (InputEvent.MouseMoved ⟨some (x, y), _⟩ _) =>
    { s with new := { s.new with position := (x, y) } }
  | _ => s

/-- Folds `React::react` over a sequence of events in order. -/
def MouseSnapshot.reactAll (s : MouseSnapshot) (events : List Event) : MouseSnapshot :=
  events.foldl MouseSnapshot.react s

/-- The blanket `SnapshotDifference<P, MouseButton>` instance for
`MouseSnapshot` (state.rs 124-141 applied to the `AsRawState<MouseButton>`
backing set of mouse.rs 176-182). -/
def MouseSnapshot.buttonDifference (s : MouseSnapshot) : Finset (MouseButton × ElementState) :=
  snapshotDifference s.new.buttons s.old.buttons

/-- The blanket `SnapshotTransition<P, MouseProximity>` instance (state.rs
94-107) with `CompositeState<MouseProximity> for MouseState` (mouse.rs
190-194): the transition of the proximity flag. -/
def MouseSnapshot.proximityTransition (s : MouseSnapshot) : Option Bool :=
  State.transition s.new.proximity s.old.proximity

/-- `SnapshotDifference<P, MouseProximity>::difference for MouseSnapshot`
(mouse.rs 95-108): the proximity transition paired with the element marker. -/
def MouseSnapshot.proximityDifference (s : MouseSnapshot) : Option (MouseProximity × Bool) :=
  s.proximityTransition.map fun state => (MouseProximity.mk, state)

/-- `SnapshotDifference<P, MousePosition>::difference for MouseSnapshot`
(mouse.rs 71-93): the body is an unimplemented stub (a commented-out TODO)
that always returns `None`. -/
def MouseSnapshot.positionDifference (_s : MouseSnapshot) :
    Option (MousePosition × (Int × Int)) :=
  none

/-! ## Reactor contract (gaudium-core/src/reactor.rs) -/

/-- `std::time::Instant`: an opaque point in time; only compared, never
computed with, in the embedded code, so modelled as `ℕ`. -/
abbrev Instant := Nat

/-- `Poll` (reactor.rs 176-199): how the event thread polls in the next
iteration. -/
inductive Poll where
  | Ready
  | Wait
  | WaitUntil (until_ : Instant)
deriving DecidableEq, Repr

/-- `Default for Poll` (reactor.rs 201-205): `Poll::Ready`. -/
def Poll.default : Poll :=
  Poll.Ready

/-- `Reaction<T>` (reactor.rs 212-232): continue with a payload, or abort. -/
inductive Reaction (T : Type) where
  | Continue (payload : T)
  | Abort
deriving DecidableEq, Repr

/-- `Default for Reaction<T>` (reactor.rs 246-253):
`Reaction::Continue(Default::default())`, at the payload's default. -/
def Reaction.default {T : Type} (d : T) : Reaction T :=
  Reaction.Continue d

/-- A `Reactor` implementation (reactor.rs 283-304), modelled as a transition
system over the reactor's own state `σ`: `react` consumes an event and yields
a `Reaction` (the `ThreadContext` argument carries no data and is omitted);
`poll` yields a `Reaction<Poll>`. The event type is a parameter `ε`: the
engine never inspects events, and the Windows engine is built against a
`gaudium-core` revision whose `Event` differs from the one under `src/`. -/
structure Reactor (σ ε : Type) where
  react : σ → ε → σ × Reaction Unit
  poll : σ → σ × Reaction Poll

/-- The default `Reactor::poll` method (reactor.rs 292-298): its body is
`Default::default()`, i.e. `Reaction::Continue(Poll::default())`; the reactor
state is untouched. This is what a `Reactor` implementation that does not
override `poll` uses on every call. -/
def Reactor.defaultPoll {σ : Type} (s : σ) : σ × Reaction Poll :=
  (s, Reaction.default Poll.default)

/-! ## Windows event-thread engine (gaudium-platform-windows/src/reactor.rs)

The engine owns a reactor, a stored `reaction`, and a `VecDeque` event queue
(reactor.rs 33-41). Its `run` loop (reactor.rs 57-105) alternates native
dispatch with: reacting to queued events (popped from the front), a poll-mode
query, and a decision on the stored reaction (`Abort` breaks the loop). The
functions below embed the queue/reaction bookkeeping; native Win32 calls are
outside the model. -/

/-- `EventThread<R>` (reactor.rs 33-41): the reactor state, the stored
reaction, and the pending-event queue (`VecDeque`, modelled as a list whose
head is the front). The `ThreadContext` field carries no data. -/
structure EventThread (σ ε : Type) where
  reactor : σ
  reaction : Reaction Poll
  queue : List ε
deriving DecidableEq, Repr

/-- `EventThread::new` (reactor.rs 47-54): stored reaction
`Default::default()` (= `Continue(Poll::Ready)`), empty queue. -/
def EventThread.new {σ ε : Type} (reactor : σ) : EventThread σ ε :=
  { reactor, reaction := Reaction.default Poll.default, queue := [] }

/-- `React::react for EventThread` (reactor.rs 126-133): delegate to the
reactor, then overwrite the stored reaction only if an `Abort` was emitted. -/
def EventThread.reactStep {σ ε : Type} (R : Reactor σ ε) (t : EventThread σ ε)
    (event : ε) : EventThread σ ε × Reaction Unit :=
  let r := R.react t.reactor event
  ({ t with
      reactor := r.1,
      reaction :=
        match r.2 with
        | Reaction.Abort => Reaction.Abort
        | Reaction.Continue _ => t.reaction },
   r.2)

/-- `EventThread::poll` (reactor.rs 112-119): delegate to the reactor's
`poll`, then overwrite the stored reaction only if it is not `Abort`. -/
def EventThread.pollStep {σ ε : Type} (R : Reactor σ ε) (t : EventThread σ ε) :
    EventThread σ ε × Reaction Poll :=
  let r := R.poll t.reactor
  ({ t with
      reactor := r.1,
      reaction :=
        match t.reaction with
        | Reaction.Continue _ => r.2
        | Reaction.Abort => t.reaction },
   r.2)

/-- `React::enqueue for EventThread` (reactor.rs 135-138):
`self.queue.push_back(event)`. -/
def EventThread.enqueue {σ ε : Type} (t : EventThread σ ε) (event : ε) :
    EventThread σ ε :=
  { t with queue := t.queue ++ [event] }

/-- The loop body of the `enqueue` ingestion hook (reactor.rs 177-179):
push each event of the batch to the back of the queue, in order. -/
def EventThread.enqueueAll {σ ε : Type} (t : EventThread σ ε) (events : List ε) :
    EventThread σ ε :=
  events.foldl EventThread.enqueue t

/-- A sequence of `EventThread::react` calls, in order (e.g. one flush batch
of reactor.rs 71-74). -/
def EventThread.reactSeq {σ ε : Type} (R : Reactor σ ε) :
    EventThread σ ε → List ε → EventThread σ ε
  | t, [] => t
  | t, e :: rest => EventThread.reactSeq R (EventThread.reactStep R t e).1 rest

/-- The queue-draining loop of `run` (reactor.rs 72-74):
`while let Some(event) = self.queue.pop_front() { self.react(event); }`.
The reactor has no access to the queue, so `reactStep` leaves it unchanged
and the loop consumes exactly the queue contents front-to-back; the recursion
is therefore structural on the queue contents. The second component records
the events in the order they were handed to `react`. -/
def EventThread.drainGo {σ ε : Type} (R : Reactor σ ε) :
    EventThread σ ε → List ε → EventThread σ ε × List ε
  | t, [] => (t, [])
  | t, event :: rest =>
    let t1 := (EventThread.reactStep R { t with queue := rest } event).1
    let p := EventThread.drainGo R t1 rest
    (p.1, event :: p.2)

/-- Drains the engine's queue (reactor.rs 72-74), returning the new engine
state and the dispatch order. -/
def EventThread.drain {σ ε : Type} (R : Reactor σ ε) (t : EventThread σ ε) :
    EventThread σ ε × List ε :=
  EventThread.drainGo R t t.queue

/-- The decision `run` takes on the stored reaction after the poll phase
(reactor.rs 76-90): `Abort => break 'react` stops the loop; any `Continue`
maps the poll mode to a native wait and keeps looping. -/
def loopBreaks : Reaction Poll → Bool
  | Reaction.Abort => true
  | Reaction.Continue _ => false

/-- The re-entrant `react` ingestion hook (reactor.rs 162-169): if no event
thread is registered in the thread-local slot, fail with `Err(())`; otherwise
dispatch to the registered engine. -/
def reactHook {σ ε : Type} (R : Reactor σ ε) (slot : Option (EventThread σ ε))
    (event : ε) : Except Unit (EventThread σ ε × Reaction Unit) :=
  match slot with
  | none => Except.error ()
  | some t => Except.ok (EventThread.reactStep R t event)

/-- The re-entrant `enqueue` ingestion hook (reactor.rs 171-182): if no event
thread is registered in the thread-local slot, fail with `Err(())`; otherwise
push the whole batch to the back of the registered engine's queue. -/
def enqueueHook {σ ε : Type} (slot : Option (EventThread σ ε)) (events : List ε) :
    Except Unit (EventThread σ ε) :=
  match slot with
  | none => Except.error ()
  | some t => Except.ok (EventThread.enqueueAll t events)

/-- The blanket `SnapshotTransition<P, MousePosition>` instance (state.rs
94-107) with `CompositeState<MousePosition> for MouseState` (mouse.rs
184-188): the transition of the absolute position. -/
def MouseSnapshot.positionTransition (s : MouseSnapshot) : Option (Int × Int) :=
  State.transition s.new.position s.old.position

/-! ## Concrete scenario data -/

/-- The end-to-end scenario's first event (spec section 8):
`MouseButtonChanged{Left, Pressed}`. -/
def endToEndButtonEvent : Event :=
  Event.Input ⟨0⟩ none
    (InputEvent.MouseButtonChanged MouseButton.Left ElementState.Pressed ModifierState.mk)

/-- The end-to-end scenario's second event (spec section 8):
`MouseMoved{relative:(5,5)}` (no absolute position). -/
def endToEndMoveEvent : Event :=
  Event.Input ⟨0⟩ none
    (InputEvent.MouseMoved (MouseMovement.mk none (some (5, 5))) ModifierState.mk)

/-- The end-to-end scenario's mouse snapshot after the two events, before the
`snapshot()` call. -/
def endToEndBefore : MouseSnapshot :=
  MouseSnapshot.react (MouseSnapshot.react MouseSnapshot.default endToEndButtonEvent)
    endToEndMoveEvent

/-- The end-to-end scenario's mouse snapshot after the `snapshot()` call. -/
def endToEndAfter : MouseSnapshot :=
  endToEndBefore.snapshot

/-- A reactor that always continues and polls `Wait`; used to instantiate
engine-level theorems at a concrete input. -/
def sampleReactor : Reactor Unit Nat where
  react := fun s _ => (s, Reaction.Continue ())
  poll := fun s => (s, Reaction.Continue Poll.Wait)

/-- A reactor following the spec's abort-stickiness scenario (spec section 8):
its successive `react` calls return `Continue`, `Abort`, `Continue`, counted
by a `ℕ` state, and `poll` returns `Continue(Ready)`. -/
def scriptedReactor : Reactor Nat Nat where
  react := fun n _ => (n + 1, if n = 1 then Reaction.Abort else Reaction.Continue ())
  poll := fun n => (n, Reaction.Continue Poll.Ready)

/-! ## Lemmas about the diffing framework -/

theorem mem_symmetricDifference {E : Type} [DecidableEq E] (a b : Finset E) (e : E) :
    e ∈ symmetricDifference a b ↔ (e ∈ a ∧ e ∉ b) ∨ (e ∈ b ∧ e ∉ a) := by
  simp [symmetricDifference]

theorem mem_snapshotDifference {E : Type} [DecidableEq E] (newSet oldSet : Finset E)
    (e : E) (st : ElementState) :
    (e, st) ∈ snapshotDifference newSet oldSet ↔
      ((e ∈ newSet ∧ e ∉ oldSet) ∨ (e ∈ oldSet ∧ e ∉ newSet)) ∧ st = stateOfSet newSet e := by
  simp only [snapshotDifference, Finset.mem_image, mem_symmetricDifference, Prod.mk.injEq]
  constructor
  · rintro ⟨a, ha, rfl, rfl⟩
    exact ⟨ha, rfl⟩
  · rintro ⟨ha, rfl⟩
    exact ⟨e, ha, rfl, rfl⟩

theorem MouseSnapshot.react_old (s : MouseSnapshot) (e : Event) :
    (MouseSnapshot.react s e).old = s.old := by
  unfold MouseSnapshot.react
  split <;> rfl

theorem MouseSnapshot.react_proximity (s : MouseSnapshot) (e : Event) :
    (MouseSnapshot.react s e).new.proximity = s.new.proximity := by
  unfold MouseSnapshot.react
  split <;> rfl

theorem MouseSnapshot.reactAll_old (s : MouseSnapshot) (events : List Event) :
    (MouseSnapshot.reactAll s events).old = s.old := by
  induction events generalizing s with
  | nil => rfl
  | cons e rest ih =>
    show (MouseSnapshot.reactAll (MouseSnapshot.react s e) rest).old = s.old
    rw [ih, MouseSnapshot.react_old]

theorem MouseSnapshot.reactAll_proximity (s : MouseSnapshot) (events : List Event) :
    (MouseSnapshot.reactAll s events).new.proximity = s.new.proximity := by
  induction events generalizing s with
  | nil => rfl
  | cons e rest ih =>
    show (MouseSnapshot.reactAll (MouseSnapshot.react s e) rest).new.proximity = _
    rw [ih, MouseSnapshot.react_proximity]

/-! ## Lemmas about the event-thread engine -/

theorem EventThread.reactStep_queue {σ ε : Type} (R : Reactor σ ε)
    (t : EventThread σ ε) (e : ε) : ((EventThread.reactStep R t e).1).queue = t.queue :=
  rfl

theorem EventThread.reactStep_abort {σ ε : Type} (R : Reactor σ ε)
    (t : EventThread σ ε) (e : ε) (h : (R.react t.reactor e).2 = Reaction.Abort) :
    ((EventThread.reactStep R t e).1).reaction = Reaction.Abort := by
  simp only [EventThread.reactStep, h]

theorem EventThread.reactStep_keeps_abort {σ ε : Type} (R : Reactor σ ε)
    (t : EventThread σ ε) (e : ε) (h : t.reaction = Reaction.Abort) :
    ((EventThread.reactStep R t e).1).reaction = Reaction.Abort := by
  simp only [EventThread.reactStep]
  split
  · rfl
  · exact h

theorem EventThread.reactSeq_append {σ ε : Type} (R : Reactor σ ε)
    (l1 l2 : List ε) (t : EventThread σ ε) :
    EventThread.reactSeq R t (l1 ++ l2) =
      EventThread.reactSeq R (EventThread.reactSeq R t l1) l2 := by
  induction l1 generalizing t with
  | nil => rfl
  | cons e rest ih =>
    show EventThread.reactSeq R (EventThread.reactStep R t e).1 (rest ++ l2) = _
    rw [ih]
    rfl

theorem EventThread.reactSeq_keeps_abort {σ ε : Type} (R : Reactor σ ε)
    (es : List ε) (t : EventThread σ ε) (h : t.reaction = Reaction.Abort) :
    (EventThread.reactSeq R t es).reaction = Reaction.Abort := by
  induction es generalizing t with
  | nil => exact h
  | cons e rest ih =>
    exact ih _ (EventThread.reactStep_keeps_abort R t e h)

theorem EventThread.pollStep_keeps_abort {σ ε : Type} (R : Reactor σ ε)
    (t : EventThread σ ε) (h : t.reaction = Reaction.Abort) :
    ((EventThread.pollStep R t).1).reaction = Reaction.Abort := by
  simp only [EventThread.pollStep, h]

theorem EventThread.drainGo_trace {σ ε : Type} (R : Reactor σ ε)
    (q : List ε) (t : EventThread σ ε) : (EventThread.drainGo R t q).2 = q := by
  induction q generalizing t with
  | nil => rfl
  | cons e rest ih =>
    show e :: (EventThread.drainGo R _ rest).2 = e :: rest
    rw [ih]

theorem EventThread.drainGo_queue {σ ε : Type} (R : Reactor σ ε)
    (q : List ε) (t : EventThread σ ε) (h : t.queue = q) :
    ((EventThread.drainGo R t q).1).queue = [] := by
  induction q generalizing t with
  | nil => exact h
  | cons e rest ih =>
    exact ih _ rfl

theorem EventThread.drain_trace {σ ε : Type} (R : Reactor σ ε)
    (t : EventThread σ ε) : (EventThread.drain R t).2 = t.queue :=
  EventThread.drainGo_trace R t.queue t

theorem EventThread.drain_queue {σ ε : Type} (R : Reactor σ ε)
    (t : EventThread σ ε) : ((EventThread.drain R t).1).queue = [] :=
  EventThread.drainGo_queue R t.queue t rfl

theorem EventThread.enqueueAll_queue {σ ε : Type} (t : EventThread σ ε)
    (events : List ε) : (EventThread.enqueueAll t events).queue = t.queue ++ events := by
  induction events generalizing t with
  | nil => simp [EventThread.enqueueAll]
  | cons e rest ih =>
    show (EventThread.enqueueAll (EventThread.enqueue t e) rest).queue = _
    rw [ih]
    simp [EventThread.enqueue]

/-! ## Claim theorems -/

/-- C1: for every sequence of events applied to a mouse snapshot's live state,
the set-backed difference query contains exactly the pairs whose element lies
in the symmetric difference of the new and old pressed-button sets, tagged
`Pressed` when the element is in the new set and `Released` otherwise; in
particular, after a `snapshot()` call followed by the sequence, the difference
is the symmetric difference of the pressed sets after and before the sequence,
tagged the same way. -/
theorem difference_is_symmetric_difference (s : MouseSnapshot) (events : List Event)
    (b : MouseButton) (st : ElementState) :
    ((b, st) ∈ s.buttonDifference ↔
      ((b ∈ s.new.buttons ∧ b ∉ s.old.buttons) ∨ (b ∈ s.old.buttons ∧ b ∉ s.new.buttons)) ∧
        st = (if b ∈ s.new.buttons then ElementState.Pressed else ElementState.Released))
    ∧ ((b, st) ∈ (MouseSnapshot.reactAll s.snapshot events).buttonDifference ↔
      ((b ∈ (MouseSnapshot.reactAll s.snapshot events).new.buttons ∧ b ∉ s.new.buttons) ∨
        (b ∈ s.new.buttons ∧ b ∉ (MouseSnapshot.reactAll s.snapshot events).new.buttons)) ∧
        st = (if b ∈ (MouseSnapshot.reactAll s.snapshot events).new.buttons
              then ElementState.Pressed else ElementState.Released)) := by
  have general : ∀ t : MouseSnapshot, (b, st) ∈ t.buttonDifference ↔
      ((b ∈ t.new.buttons ∧ b ∉ t.old.buttons) ∨ (b ∈ t.old.buttons ∧ b ∉ t.new.buttons)) ∧
        st = (if b ∈ t.new.buttons then ElementState.Pressed else ElementState.Released) := by
    intro t
    rw [MouseSnapshot.buttonDifference, mem_snapshotDifference, stateOfSet]
  constructor
  · exact general s
  · have hold : (MouseSnapshot.reactAll s.snapshot events).old.buttons = s.new.buttons := by
      rw [MouseSnapshot.reactAll_old]
      rfl
    rw [general, hold]

/-- C2: abort is sticky. If a `react` call in a flush batch returns `Abort`,
the engine's stored reaction becomes `Abort`, stays `Abort` through the
remaining `react` calls of the batch and a subsequent `poll`, and the loop's
decision on the stored reaction is to break. -/
theorem abort_is_sticky {σ ε : Type} (R : Reactor σ ε) (t : EventThread σ ε)
    (es1 : List ε) (e : ε) (es2 : List ε)
    (h : (R.react (EventThread.reactSeq R t es1).reactor e).2 = Reaction.Abort) :
    ((EventThread.reactStep R (EventThread.reactSeq R t es1) e).1).reaction = Reaction.Abort
    ∧ ((EventThread.pollStep R
        (EventThread.reactSeq R t (es1 ++ e :: es2))).1).reaction = Reaction.Abort
    ∧ loopBreaks ((EventThread.pollStep R
        (EventThread.reactSeq R t (es1 ++ e :: es2))).1).reaction = true := by
  have h1 := EventThread.reactStep_abort R (EventThread.reactSeq R t es1) e h
  have h2 : (EventThread.reactSeq R t (es1 ++ e :: es2)).reaction = Reaction.Abort := by
    rw [EventThread.reactSeq_append]
    exact EventThread.reactSeq_keeps_abort R es2 _ h1
  have h3 := EventThread.pollStep_keeps_abort R _ h2
  exact ⟨h1, h3, by rw [h3]; rfl⟩

/-- Witness for C2, at the spec's scenario: in one flush batch the react calls
return `[Continue, Abort, Continue]` and `poll` returns `Continue(Ready)`;
the engine's stored reaction after the batch and poll is `Abort` and the loop
breaks. -/
theorem abort_is_sticky_witness :
    ((EventThread.reactStep scriptedReactor
        (EventThread.reactSeq scriptedReactor (EventThread.new 0) [10]) 11).1).reaction
      = Reaction.Abort
    ∧ ((EventThread.pollStep scriptedReactor
        (EventThread.reactSeq scriptedReactor (EventThread.new 0)
          ([10] ++ 11 :: [12]))).1).reaction = Reaction.Abort
    ∧ loopBreaks ((EventThread.pollStep scriptedReactor
        (EventThread.reactSeq scriptedReactor (EventThread.new 0)
          ([10] ++ 11 :: [12]))).1).reaction = true :=
  abort_is_sticky scriptedReactor (EventThread.new 0) [10] 11 [12] (by decide)

/-- C3: events enqueued as a batch `[E1, E2, E3]` via the enqueue hook are
pushed to the back of the queue in order and, when the engine drains its
queue, are handed to `react` in exactly the order `E1, E2, E3`; the drain
leaves the queue empty, so the whole queue is consumed before the loop's
subsequent poll phase. -/
theorem queue_drain_order {σ ε : Type} (R : Reactor σ ε) (t : EventThread σ ε)
    (E1 E2 E3 : ε) (h : t.queue = []) :
    (EventThread.drain R (EventThread.enqueueAll t [E1, E2, E3])).2 = [E1, E2, E3]
    ∧ ((EventThread.drain R (EventThread.enqueueAll t [E1, E2, E3])).1).queue = [] := by
  constructor
  · rw [EventThread.drain_trace, EventThread.enqueueAll_queue, h]
    rfl
  · exact EventThread.drain_queue R _

/-- Witness for C3: a fresh engine (empty queue) with a batch `[1, 2, 3]`
dispatches `1, 2, 3` in order and ends with an empty queue. -/
theorem queue_drain_order_witness :
    (EventThread.drain sampleReactor
      (EventThread.enqueueAll (EventThread.new ()) [1, 2, 3])).2 = [1, 2, 3]
    ∧ ((EventThread.drain sampleReactor
      (EventThread.enqueueAll (EventThread.new ()) [1, 2, 3])).1).queue = [] :=
  queue_drain_order sampleReactor (EventThread.new ()) 1 2 3 rfl

/-- C4 counterexample: the default `Reactor::poll` implementation does not
return `Continue(Wait)`; at the concrete reactor state `0 : ℕ` it returns
`Continue(Ready)`. -/
theorem default_poll_is_not_wait :
    (Reactor.defaultPoll (0 : Nat)).2 ≠ Reaction.Continue Poll.Wait := by
  decide

/-- C4 (amended): a `Reactor` implementation that does not override `poll`
uses a default implementation that returns `Continue(Ready)` — the `Default`
of `Poll` — on every call, leaving the reactor state unchanged. -/
theorem default_poll_returns_ready {σ : Type} (s : σ) :
    Reactor.defaultPoll s = (s, Reaction.Continue Poll.Ready) :=
  rfl

/-- C6: the default `State::transition` law: `transition(a, a) = None` for
every state `a`, and `transition(a, b) = Some(a)` (the new state) whenever
`a ≠ b`. -/
theorem transition_default_law {α : Type} [DecidableEq α] (a b : α) (h : a ≠ b) :
    State.transition a a = none ∧ State.transition a b = some a :=
  ⟨by simp [State.transition], by simp [State.transition, h]⟩

/-- Witness for C6 at the spec's example:
`transition(Pressed, Pressed) = None` for `a = Released` reads
`transition(Released, Released) = None`, and
`transition(Released, Pressed) = Some(Released)`. -/
theorem transition_default_law_witness :
    State.transition ElementState.Released ElementState.Released = none
    ∧ State.transition ElementState.Released ElementState.Pressed
      = some ElementState.Released :=
  transition_default_law ElementState.Released ElementState.Pressed (by decide)

/-- C7: `into_window_event` keeps a `Window` event queried with its own
handle, drops it when queried with a different handle, and always keeps an
`Input` event whose window is `None`, for any queried handle. -/
theorem into_window_event_filter (W W2 : WindowHandle) (d : DeviceHandle)
    (we : WindowEvent) (ie : InputEvent) (h : W ≠ W2) :
    (Event.Window W we).into_window_event W = some (Event.Window W we)
    ∧ (Event.Window W we).into_window_event W2 = none
    ∧ (Event.Input d none ie).into_window_event W = some (Event.Input d none ie) := by
  refine ⟨?_, ?_, ?_⟩
  · simp [Event.into_window_event]
  · simp [Event.into_window_event, h]
  · simp [Event.into_window_event]

/-- Witness for C7 at concrete handles `0 ≠ 1`, a `Window{Activated}` event,
and a non-windowed `Input{Disconnected}` event. -/
theorem into_window_event_filter_witness :
    (Event.Window ⟨0⟩ WindowEvent.Activated).into_window_event ⟨0⟩
      = some (Event.Window ⟨0⟩ WindowEvent.Activated)
    ∧ (Event.Window ⟨0⟩ WindowEvent.Activated).into_window_event ⟨1⟩ = none
    ∧ (Event.Input ⟨0⟩ none InputEvent.Disconnected).into_window_event ⟨0⟩
      = some (Event.Input ⟨0⟩ none InputEvent.Disconnected) :=
  into_window_event_filter ⟨0⟩ ⟨1⟩ ⟨0⟩ WindowEvent.Activated InputEvent.Disconnected
    (by decide)

/-- C8: calling the re-entrant `react` or `enqueue` ingestion hooks with no
event thread registered in the thread-local slot returns `Err(())` to the
caller, for every event argument. -/
theorem hooks_fail_without_registered_thread {σ ε : Type} (R : Reactor σ ε)
    (e : ε) (events : List ε) :
    reactHook R (none : Option (EventThread σ ε)) e = Except.error ()
    ∧ enqueueHook (none : Option (EventThread σ ε)) events = Except.error () :=
  ⟨rfl, rfl⟩

/-- C9: a `KeyboardKeyChanged` input event whose keycode is `None` leaves the
keyboard snapshot completely unchanged, whatever its scancode, state, and
modifier fields and whatever the event's device and window handles. -/
theorem keyboard_ignores_none_keycode (s : KeyboardSnapshot) (d : DeviceHandle)
    (w : Option WindowHandle) (sc : ScanCode) (st : ElementState) (m : ModifierState) :
    KeyboardSnapshot.react s
      (Event.Input d w (InputEvent.KeyboardKeyChanged sc none st m)) = s := by
  cases st <;> rfl

/-- C10: the proximity flag starts `false` in both the new and old aggregates
and is preserved by `react` on every event, so after any sequence of events
the `MouseProximity` transition query and difference query both return
`None`. -/
theorem proximity_constant_queries_none (s : MouseSnapshot) (e : Event)
    (events : List Event) :
    (MouseSnapshot.react s e).new.proximity = s.new.proximity
    ∧ (MouseSnapshot.react s e).old.proximity = s.old.proximity
    ∧ MouseSnapshot.default.new.proximity = false
    ∧ MouseSnapshot.default.old.proximity = false
    ∧ (MouseSnapshot.reactAll MouseSnapshot.default events).proximityTransition = none
    ∧ (MouseSnapshot.reactAll MouseSnapshot.default events).proximityDifference = none := by
  have htrans : (MouseSnapshot.reactAll MouseSnapshot.default events).proximityTransition
      = none := by
    rw [MouseSnapshot.proximityTransition, MouseSnapshot.reactAll_proximity,
      MouseSnapshot.reactAll_old]
    rfl
  refine ⟨MouseSnapshot.react_proximity s e, ?_, rfl, rfl, htrans, ?_⟩
  · rw [MouseSnapshot.react_old]
  · rw [MouseSnapshot.proximityDifference, htrans]
    rfl

/-- C5 counterexample: running the end-to-end scenario —
`MouseButtonChanged{Left, Pressed}`, then `MouseMoved{relative:(5,5)}`, then
`snapshot()` — the difference by button set is not `[(Left, Pressed)]` (the
`snapshot()` call copied the live state into the old state, so it is empty),
and the difference by `MousePosition` is not the vector `(5,5)` (that query
is an unimplemented stub returning `None`, and relative-only motion does not
update the position). -/
theorem end_to_end_scenario_counterexample :
    endToEndAfter.buttonDifference ≠ {(MouseButton.Left, ElementState.Pressed)}
    ∧ endToEndAfter.positionDifference ≠ some (MousePosition.mk, (5, 5)) := by
  decide

/-- C5 (amended): in the end-to-end scenario the difference by button set
queried *before* the `snapshot()` call yields exactly `[(Left, Pressed)]`;
after the `snapshot()` call it is empty; and the difference by
`MousePosition` is `None` both before and after (the query is a stub and the
relative-only `MouseMoved` event leaves the position at `(0, 0)`, so the
position transition is `None` as well). -/
theorem end_to_end_scenario_amended :
    endToEndBefore.buttonDifference = {(MouseButton.Left, ElementState.Pressed)}
    ∧ endToEndAfter.buttonDifference = ∅
    ∧ endToEndBefore.positionDifference = none
    ∧ endToEndAfter.positionDifference = none
    ∧ endToEndBefore.new.position = (0, 0)
    ∧ endToEndBefore.positionTransition = none := by
  decide
